import Mathlib

/-!
Verification of the HonkBot core against its specification.

The Python modules `state/goose_brain.py`, `retaliation/scoring.py`,
`state/memory.py` and `utils/timers.py` are shallowly embedded below.
Python floats are modelled as rationals (`ℚ`), except for the exponential
half-life decay of `retaliation/scoring.py`, which needs real exponentiation
and is modelled over `ℝ`.  Python strings are Lean `String`s; the lexical
helpers (`lower`, `isalpha`, `isupper`, substring containment) are modelled
on the ASCII fragment, which covers every keyword in the source.  Module
level mutable dictionaries are modelled as functions updated pointwise, and
the process-wide mood singleton as explicit state passing.
-/

namespace GooseBrain

/-- Moods of `state/goose_brain.py` (`class Mood`). -/
inductive Mood
  | serene
  | alert
  | agitated
  | ferocious
  | chaotic
deriving DecidableEq

/-- Intents of `state/goose_brain.py` (`class Intent`). -/
inductive Intent
  | observe
  | wander
  | honk
  | peck
  | chase
  | investigate
  | retreat
deriving DecidableEq

/-- Source `DEFAULT_DECAY_SECONDS = 300.0`. -/
def DEFAULT_DECAY_SECONDS : ℚ := 300

/-- Source `GooseState` dataclass. -/
structure GooseState where
  mood : Mood
  aggression : ℚ
  boredom : ℚ
  curiosity : ℚ
  chaos : ℚ
  last_updated : ℚ
deriving DecidableEq

/-- Source `_clamp(value, minimum=0.0, maximum=1.0) = max(minimum, min(maximum, value))`. -/
def _clamp (value : ℚ) (minimum : ℚ) (maximum : ℚ) : ℚ :=
  max minimum (min maximum value)

/-- Source `MOOD_THRESHOLDS`: `(mood, low, high)` bands. -/
def MOOD_THRESHOLDS : List (Mood × ℚ × ℚ) :=
  [(.serene, 0, 0.25), (.alert, 0.25, 0.45), (.agitated, 0.45, 0.65),
   (.ferocious, 0.65, 0.85), (.chaotic, 0.85, 1.01)]

/-- Source `_resolve_mood`: first band with `low <= intensity < high`, else `CHAOTIC`. -/
def _resolve_mood (aggression : ℚ) (chaos : ℚ) : Mood :=
  let intensity := _clamp (aggression * 0.7 + chaos * 0.3) 0 1
  match MOOD_THRESHOLDS.find? (fun t => decide (t.2.1 ≤ intensity) && decide (intensity < t.2.2)) with
  | some t => t.1
  | none => .chaotic

/-- One entry of `EVENT_EFFECTS`: per-field deltas, absent keys are 0. -/
structure EventEffect where
  aggression : ℚ
  boredom : ℚ
  curiosity : ℚ
  chaos : ℚ

/-- Source `EVENT_EFFECTS` dict; unknown events map to the all-zero delta
(`EVENT_EFFECTS.get(event, {})`).  Field order: aggression, boredom,
curiosity, chaos. -/
def EVENT_EFFECTS (event : String) : EventEffect :=
  if event = "honked_at" then ⟨0.2, -0.15, 0, 0.1⟩
  else if event = "petted" then ⟨-0.2, -0.1, 0.05, 0⟩
  else if event = "ignored" then ⟨0, 0.2, -0.05, 0⟩
  else if event = "food_offered" then ⟨-0.1, 0, 0.25, 0⟩
  else if event = "chased" then ⟨0.35, 0, 0, 0.2⟩
  else if event = "loud_noise" then ⟨0.15, 0, 0.1, 0.15⟩
  else if event = "praised" then ⟨-0.1, -0.05, 0.1, 0⟩
  else ⟨0, 0, 0, 0⟩

/-- Source `DECAY_RATES["aggression"]`. -/
def DECAY_RATE_aggression : ℚ := 0.015

/-- Source `DECAY_RATES["boredom"]`. -/
def DECAY_RATE_boredom : ℚ := -0.01

/-- Source `DECAY_RATES["curiosity"]`. -/
def DECAY_RATE_curiosity : ℚ := -0.01

/-- Source `DECAY_RATES["chaos"]`. -/
def DECAY_RATE_chaos : ℚ := 0.01

/-- Source `_ensure_state`: the lazily created default state. -/
def _ensure_state (now : ℚ) : GooseState :=
  { mood := .serene, aggression := 0.2, boredom := 0.2, curiosity := 0.3,
    chaos := 0.1, last_updated := now }

/-- Source `_apply_decay(state, now, decay_seconds)`. -/
def _apply_decay (state : GooseState) (now : ℚ) (decay_seconds : ℚ) : GooseState :=
  let elapsed := max 0 (now - state.last_updated)
  if decay_seconds ≤ 0 then state
  else
    let factor := min 1 (elapsed / decay_seconds)
    let aggression := _clamp (state.aggression - DECAY_RATE_aggression * factor) 0 1
    let boredom := _clamp (state.boredom + DECAY_RATE_boredom * factor) 0 1
    let curiosity := _clamp (state.curiosity + DECAY_RATE_curiosity * factor) 0 1
    let chaos := _clamp (state.chaos + DECAY_RATE_chaos * factor) 0 1
    { mood := _resolve_mood aggression chaos, aggression := aggression,
      boredom := boredom, curiosity := curiosity, chaos := chaos, last_updated := now }

/-- Source `update_state(event, intensity, now, decay_seconds)`: decay, then event
delta scaled by intensity, then clamp each field, then recompute mood. -/
def update_state (state : GooseState) (event : String) (intensity : ℚ)
    (now : ℚ) (decay_seconds : ℚ) : GooseState :=
  let s := _apply_decay state now decay_seconds
  let adjustments := EVENT_EFFECTS event
  let aggression := _clamp (s.aggression + adjustments.aggression * intensity) 0 1
  let boredom := _clamp (s.boredom + adjustments.boredom * intensity) 0 1
  let curiosity := _clamp (s.curiosity + adjustments.curiosity * intensity) 0 1
  let chaos := _clamp (s.chaos + adjustments.chaos * intensity) 0 1
  { mood := _resolve_mood aggression chaos, aggression := aggression,
    boredom := boredom, curiosity := curiosity, chaos := chaos, last_updated := now }

/-- Source `tick(now, decay_seconds)` on the stored state. -/
def tick (state : GooseState) (now : ℚ) (decay_seconds : ℚ) : GooseState :=
  _apply_decay state now decay_seconds

/-- States reachable from the lazily created default by any sequence of
`tick` / `update_state` calls with arbitrary arguments. -/
inductive Reachable : GooseState → Prop
  | init (now : ℚ) : Reachable (_ensure_state now)
  | tick_step {s : GooseState} (now decay_seconds : ℚ) :
      Reachable s → Reachable (tick s now decay_seconds)
  | update_step {s : GooseState} (event : String) (intensity now decay_seconds : ℚ) :
      Reachable s → Reachable (update_state s event intensity now decay_seconds)

/-- Iteration order of the intent dictionaries (Python dict insertion order). -/
def allIntents : List Intent :=
  [.observe, .wander, .honk, .peck, .chase, .investigate, .retreat]

/-- Source `INTENT_BASE_WEIGHTS`. -/
def INTENT_BASE_WEIGHTS : Intent → ℚ
  | .observe => 0.2
  | .wander => 0.2
  | .honk => 0.2
  | .peck => 0.15
  | .chase => 0.1
  | .investigate => 0.1
  | .retreat => 0.05

/-- Net contribution of `INTENT_DRIVERS` to one intent's weight:
`sum over (field, coefficient) of state_field * coefficient`. -/
def INTENT_DRIVER_SUM (s : GooseState) : Intent → ℚ
  | .observe => s.curiosity * 0.2 + s.boredom * (-0.1)
  | .wander => s.boredom * 0.3 + s.curiosity * 0.05
  | .honk => s.aggression * 0.35 + s.chaos * 0.1
  | .peck => s.aggression * 0.25 + s.curiosity * 0.1
  | .chase => s.aggression * 0.4 + s.chaos * 0.2
  | .investigate => s.curiosity * 0.35
  | .retreat => s.aggression * (-0.25) + s.chaos * 0.05

/-- Source `MOOD_INTENT_BONUS`; absent pairs are 0. -/
def MOOD_INTENT_BONUS : Mood → Intent → ℚ
  | .serene, .observe => 0.1
  | .serene, .retreat => 0.05
  | .alert, .investigate => 0.08
  | .agitated, .honk => 0.1
  | .agitated, .peck => 0.05
  | .ferocious, .chase => 0.15
  | .ferocious, .honk => 0.08
  | .chaotic, .chase => 0.1
  | .chaotic, .honk => 0.1
  | .chaotic, .wander => 0.05
  | _, _ => 0

/-- Source `get_decision_weights(state)`: base weight, plus driver contributions,
plus the mood bonus. -/
def get_decision_weights (s : GooseState) : Intent → ℚ :=
  fun i => INTENT_BASE_WEIGHTS i + INTENT_DRIVER_SUM s i + MOOD_INTENT_BONUS s.mood i

/-- Source `total` of `DecisionWeights.normalized`: the sum of the strictly positive
weight values. -/
def positive_total (w : Intent → ℚ) : ℚ :=
  (allIntents.map (fun i => if 0 < w i then w i else 0)).sum

/-- Source `DecisionWeights.normalized`: all-zero when the positive total is `≤ 0`,
else `max(0, value) / total`. -/
def normalized (w : Intent → ℚ) : Intent → ℚ :=
  if positive_total w ≤ 0 then fun _ => 0
  else fun i => max 0 (w i) / positive_total w

/-- Source `get_intent`: the first intent (in dict iteration order) whose
normalized weight is maximal, as `max(weights, key=weights.get)`. -/
def get_intent (s : GooseState) : Intent :=
  let w := normalized (get_decision_weights s)
  allIntents.foldl (fun best i => if w best < w i then i else best) .observe

/-- Concrete stored state used to refute the no-chaos-increase claim:
all four fields in `[0,1]`, `last_updated = 0`. -/
def c2_state : GooseState :=
  { mood := .serene, aggression := 0.2, boredom := 0.2, curiosity := 0.3,
    chaos := 0.5, last_updated := 0 }

end GooseBrain

namespace Scoring

/-- Source `Thresholds` dataclass of `retaliation/scoring.py`. -/
structure Thresholds where
  warn : ℚ
  retaliate : ℚ
  severe : ℚ

/-- Source `ScoringConfig` dataclass. -/
structure ScoringConfig where
  base_insult : ℚ
  profanity : ℚ
  threat : ℚ
  all_caps_multiplier : ℚ
  exclamation_multiplier : ℚ
  mention_direct : ℚ
  mention_group : ℚ
  repetition : ℚ
  escalation : ℚ
  rapid_fire : ℚ
  half_life_seconds : ℚ
  thresholds : Thresholds

/-- The default `ScoringConfig()`. -/
def default_config : ScoringConfig :=
  { base_insult := 2.0, profanity := 1.2, threat := 2.5,
    all_caps_multiplier := 1.4, exclamation_multiplier := 1.1,
    mention_direct := 1.5, mention_group := 0.8,
    repetition := 1.0, escalation := 2.0, rapid_fire := 1.5,
    half_life_seconds := 900,
    thresholds := { warn := 6.0, retaliate := 12.0, severe := 18.0 } }

/-- Source `MessageEvent` dataclass; `created_at` is a timestamp in seconds. -/
structure MessageEvent where
  author_id : String
  content : String
  mentions : List String
  mention_everyone : Bool
  mention_role : Bool
  created_at : ℚ

/-- Source `HistorySample` dataclass. -/
structure HistorySample where
  content : String
  created_at : ℚ
  mentions : List String

/-- Source `_INSULT_KEYWORDS`. -/
def _INSULT_KEYWORDS : List String :=
  ["idiot", "moron", "stupid", "dumb", "loser", "trash", "garbage",
   "clown", "pathetic", "worthless", "useless", "shut up", "shutup"]

/-- Source `_PROFANITY`. -/
def _PROFANITY : List String :=
  ["fuck", "fucking", "shit", "bitch", "bastard", "asshole", "dick",
   "piss", "cunt"]

/-- Source `_THREATS`. -/
def _THREATS : List String :=
  ["kill", "hurt", "destroy", "ruin", "burn", "die", "dead",
   "dox", "doxx", "doxxing"]

/-- Source `_INSULT_KEYWORDS | _PROFANITY | _THREATS`; the three sets are pairwise
disjoint, so set union is list concatenation for counting purposes. -/
def _ALL_KEYWORDS : List String := _INSULT_KEYWORDS ++ _PROFANITY ++ _THREATS

/-- Python `str.lower()` on the ASCII fragment. -/
def to_lower (s : String) : String := ⟨s.data.map Char.toLower⟩

/-- Python substring containment `pattern in text`. -/
def contains_sub (text : String) (pattern : String) : Bool :=
  (List.range (text.data.length + 1)).any
    (fun i => pattern.data.isPrefixOf (text.data.drop i))

/-- Source `_keyword_hits(text, keywords)`: how many keywords occur in `text`. -/
def _keyword_hits (text : String) (keywords : List String) : ℕ :=
  (keywords.filter (fun k => contains_sub text k)).length

/-- Source `_is_all_caps(content)`: there is at least one letter and every letter is
uppercase (ASCII fragment of `str.isalpha` / `str.isupper`). -/
def _is_all_caps (content : String) : Bool :=
  let letters := content.data.filter Char.isAlpha
  !letters.isEmpty && letters.all Char.isUpper

/-- Source `_score_content(content, config)`. -/
def _score_content (content : String) (config : ScoringConfig) : ℚ :=
  let text := to_lower content
  let score : ℚ :=
    (_keyword_hits text _INSULT_KEYWORDS : ℚ) * config.base_insult
    + (_keyword_hits text _PROFANITY : ℚ) * config.profanity
    + (_keyword_hits text _THREATS : ℚ) * config.threat
  let score := if _is_all_caps content then score * config.all_caps_multiplier else score
  if contains_sub content "!" then score * config.exclamation_multiplier else score

/-- Source `_score_mentions(message, config)`. -/
def _score_mentions (message : MessageEvent) (config : ScoringConfig) : ℚ :=
  (if message.mentions.isEmpty then 0
   else (message.mentions.length : ℚ) * config.mention_direct)
  + (if message.mention_everyone || message.mention_role then config.mention_group else 0)

/-- Source `_score_repetition(message, history, config)`. -/
def _score_repetition (message : MessageEvent) (history : List HistorySample)
    (config : ScoringConfig) : ℚ :=
  if history.isEmpty then 0
  else
    let text := to_lower message.content.trim
    let repeated := (history.take 5).countP
      (fun s => decide (to_lower s.content.trim = text))
    let repeated_mentions := (history.take 5).countP
      (fun s => s.mentions.any (fun m => message.mentions.contains m))
    ((repeated : ℚ) + (repeated_mentions : ℚ)) * config.repetition

/-- The `recent_window` of `_score_escalation`: among the first five history
entries, those whose age at `now` is at most 120 seconds. -/
def _recent_window (history : List HistorySample) (now : ℚ) : List HistorySample :=
  (history.take 5).filter (fun s => decide (now - s.created_at ≤ 120))

/-- Source `_score_escalation(message, history, config, now)`. -/
def _score_escalation (message : MessageEvent) (history : List HistorySample)
    (config : ScoringConfig) (now : ℚ) : ℚ :=
  if history.isEmpty then 0
  else
    let recent_window := _recent_window history now
    if recent_window.isEmpty then 0
    else
      let current_hits := _keyword_hits (to_lower message.content) _ALL_KEYWORDS
      let prior_hits := (recent_window.map
        (fun s => _keyword_hits (to_lower s.content) _ALL_KEYWORDS)).sum
      (if 0 < current_hits ∧ 0 < prior_hits then config.escalation else 0)
      + (if 3 ≤ recent_window.length then config.rapid_fire else 0)

/-- Source `score_message(message, history, now, config)`. -/
def score_message (message : MessageEvent) (history : List HistorySample)
    (now : ℚ) (config : ScoringConfig) : ℚ :=
  max 0 (_score_content message.content config
    + _score_mentions message config
    + _score_repetition message history config
    + _score_escalation message history config now)

/-- Source `apply_decay(score, last_updated, now, config)`: exponential half-life
decay over the reals (`0.5 ** (elapsed / half_life)` in the source). -/
noncomputable def apply_decay (score : ℝ) (last_updated : ℝ) (now : ℝ)
    (config : ScoringConfig) : ℝ :=
  let elapsed := max 0 (now - last_updated)
  if (config.half_life_seconds : ℝ) ≤ 0 then score
  else score * (0.5 : ℝ) ^ (elapsed / (config.half_life_seconds : ℝ))

/-- Source `meets_threshold(score, config)`. -/
def meets_threshold (score : ℚ) (config : ScoringConfig) : Bool :=
  decide (config.thresholds.retaliate ≤ score)

/-- Source `threshold_level(score, config)`: thresholds evaluated highest-first. -/
def threshold_level (score : ℚ) (config : ScoringConfig) : String :=
  if config.thresholds.severe ≤ score then "severe"
  else if config.thresholds.retaliate ≤ score then "retaliate"
  else if config.thresholds.warn ≤ score then "warn"
  else "none"

/-- Rank of a severity label under the spec ordering
`none < warn < retaliate < severe`. -/
def tier_rank (level : String) : ℕ :=
  if level = "severe" then 3
  else if level = "retaliate" then 2
  else if level = "warn" then 1
  else 0

/-- Escalation sub-score as the claim C3 words it: the window is *all*
history entries whose age at `now` is at most 2 minutes (not just the first
five); escalation bonus iff both current and some windowed entry have a
keyword hit; rapid-fire bonus iff the window has at least 3 entries. -/
def escalation_claim (message : MessageEvent) (history : List HistorySample)
    (config : ScoringConfig) (now : ℚ) : ℚ :=
  let window := history.filter (fun s => decide (now - s.created_at ≤ 120))
  (if 0 < _keyword_hits (to_lower message.content) _ALL_KEYWORDS ∧
      (∃ s ∈ window, 0 < _keyword_hits (to_lower s.content) _ALL_KEYWORDS)
   then config.escalation else 0)
  + (if 3 ≤ window.length then config.rapid_fire else 0)

/-- Message with given content and no mentions, used in C3/C6. -/
def msg_of (content : String) : MessageEvent :=
  { author_id := "u", content := content, mentions := [],
    mention_everyone := false, mention_role := false, created_at := 0 }

/-- History for the C3 counterexample: five stale entries (age 1000 s at
`now = 1000`) followed by one fresh insult (age 10 s). -/
def c3_history : List HistorySample :=
  [{ content := "hello", created_at := 0, mentions := [] },
   { content := "hello", created_at := 0, mentions := [] },
   { content := "hello", created_at := 0, mentions := [] },
   { content := "hello", created_at := 0, mentions := [] },
   { content := "hello", created_at := 0, mentions := [] },
   { content := "idiot", created_at := 990, mentions := [] }]

end Scoring

namespace Memory

/-- Source `RecentAction` dataclass of `state/memory.py`. -/
structure RecentAction where
  action : String
  timestamp : ℚ
deriving DecidableEq

/-- Source `DEFAULT_RECENT_ACTION_LIMIT = 10`. -/
def DEFAULT_RECENT_ACTION_LIMIT : Int := 10

/-- The `_cooldowns` dict, keyed by `(key, target_id)`. -/
def Cooldowns : Type := String × Int → Option ℚ

/-- The initial (empty) `_cooldowns` dict. -/
def empty_cooldowns : Cooldowns := fun _ => none

/-- Source `get_cooldown(key, target_id)`. -/
def get_cooldown (m : Cooldowns) (key : String) (target_id : Int) : Option ℚ :=
  m (key, target_id)

/-- Source `set_cooldown(key, target_id, until_timestamp)`. -/
def set_cooldown (m : Cooldowns) (key : String) (target_id : Int)
    (until_timestamp : ℚ) : Cooldowns :=
  fun k => if k = (key, target_id) then some until_timestamp else m k

/-- Source `clear_cooldown(key, target_id)`. -/
def clear_cooldown (m : Cooldowns) (key : String) (target_id : Int) : Cooldowns :=
  fun k => if k = (key, target_id) then none else m k

/-- Source `is_on_cooldown(key, target_id, now)`: false when no entry, else
`now < timestamp`. -/
def is_on_cooldown (m : Cooldowns) (key : String) (target_id : Int) (now : ℚ) : Bool :=
  match get_cooldown m key target_id with
  | none => false
  | some timestamp => decide (now < timestamp)

/-- The `_recent_actions` dict: per-user action lists. -/
def RecentActions : Type := Int → List RecentAction

/-- The initial (empty) `_recent_actions` dict. -/
def empty_recent_actions : RecentActions := fun _ => []

/-- Python list slice `actions[-n:]` for `n ≥ 1`: the last `n` elements
(all of them when fewer). -/
def take_last {α : Type} (n : ℕ) (l : List α) : List α :=
  (l.reverse.take n).reverse

/-- Source `add_recent_action(user_id, action, timestamp, limit)`: append, then if
`limit > 0` keep only the last `limit` entries. -/
def add_recent_action (st : RecentActions) (user_id : Int) (action : String)
    (timestamp : ℚ) (limit : Int) : RecentActions :=
  let actions := st user_id ++ [⟨action, timestamp⟩]
  fun u =>
    if u = user_id then (if 0 < limit then take_last limit.toNat actions else actions)
    else st u

/-- Source `get_recent_actions(user_id)`.  The source returns `list(stored)`, a
fresh copy, so callers mutating the returned list cannot alter the store; in
this pure model reads return the stored value and leave the store as is. -/
def get_recent_actions (st : RecentActions) (user_id : Int) : List RecentAction :=
  st user_id

/-- A sequence of `add_recent_action` calls `(user_id, action, timestamp)`
with the default limit. -/
def run_adds (st : RecentActions) (ops : List (Int × String × ℚ)) : RecentActions :=
  ops.foldl
    (fun acc op => add_recent_action acc op.1 op.2.1 op.2.2 DEFAULT_RECENT_ACTION_LIMIT)
    st

/-- The actions a given user added, in insertion order. -/
def actions_for (u : Int) (ops : List (Int × String × ℚ)) : List RecentAction :=
  (ops.filter (fun op => decide (op.1 = u))).map (fun op => ⟨op.2.1, op.2.2⟩)

end Memory

namespace Timers

/-- Source `randomized_delay_value(min_seconds, max_seconds)` of `utils/timers.py`;
`random.uniform(min_seconds, max_seconds)` is modelled by a draw
`r ∈ [0,1]` giving `min + r * (max - min)`.  A raised `ValueError` is an
`Except.error` carrying the message. -/
def randomized_delay_value (min_seconds max_seconds : ℚ) (r : ℚ) : Except String ℚ :=
  if min_seconds < 0 ∨ max_seconds < 0 then .error "Delay bounds must be non-negative"
  else if max_seconds < min_seconds then .error "max_seconds must be >= min_seconds"
  else .ok (min_seconds + r * (max_seconds - min_seconds))

/-- Source `randomized_delay(min_seconds, max_seconds)`: identical validation and
draw; the `asyncio.sleep` is platform I/O outside the embedding, and the
slept duration is the returned value. -/
def randomized_delay (min_seconds max_seconds : ℚ) (r : ℚ) : Except String ℚ :=
  if min_seconds < 0 ∨ max_seconds < 0 then .error "Delay bounds must be non-negative"
  else if max_seconds < min_seconds then .error "max_seconds must be >= min_seconds"
  else .ok (min_seconds + r * (max_seconds - min_seconds))

/-- Source `RateLimiter` state: `_max_calls`, `_per_seconds`, `_timestamps`. -/
structure RateLimiter where
  max_calls : Int
  per_seconds : ℚ
  timestamps : List ℚ

/-- Source `RateLimiter.__init__(max_calls, per_seconds)`: eager validation, then
an empty sliding window. -/
def RateLimiter.make (max_calls : Int) (per_seconds : ℚ) : Except String RateLimiter :=
  if max_calls ≤ 0 then .error "max_calls must be > 0"
  else if per_seconds ≤ 0 then .error "per_seconds must be > 0"
  else .ok ⟨max_calls, per_seconds, []⟩

end Timers

namespace GooseBrain

theorem clamp01_nonneg (x : ℚ) : 0 ≤ _clamp x 0 1 := le_max_left 0 _

theorem clamp01_le_one (x : ℚ) : _clamp x 0 1 ≤ 1 :=
  max_le (by norm_num) (min_le_left 1 x)

theorem clamp01_le_of_le {x a : ℚ} (h0 : 0 ≤ a) (h : x ≤ a) : _clamp x 0 1 ≤ a :=
  max_le h0 (le_trans (min_le_right 1 x) h)

theorem clamp01_lt_of_lt {x a : ℚ} (h0 : 0 < a) (h : x < a) : _clamp x 0 1 < a :=
  max_lt h0 (lt_of_le_of_lt (min_le_right 1 x) h)

theorem le_clamp01_of_le {x a : ℚ} (ha : a ≤ 1) (h : a ≤ x) : a ≤ _clamp x 0 1 :=
  le_trans (le_min ha h) (le_max_right 0 _)

theorem lt_clamp01_of_lt {x a : ℚ} (ha : a < 1) (h : a < x) : a < _clamp x 0 1 :=
  lt_of_lt_of_le (lt_min ha h) (le_max_right 0 _)

theorem _apply_decay_fields (s : GooseState) (now ds : ℚ) (h : ¬ ds ≤ 0) :
    (_apply_decay s now ds).aggression =
      _clamp (s.aggression - DECAY_RATE_aggression * min 1 (max 0 (now - s.last_updated) / ds)) 0 1 ∧
    (_apply_decay s now ds).boredom =
      _clamp (s.boredom + DECAY_RATE_boredom * min 1 (max 0 (now - s.last_updated) / ds)) 0 1 ∧
    (_apply_decay s now ds).curiosity =
      _clamp (s.curiosity + DECAY_RATE_curiosity * min 1 (max 0 (now - s.last_updated) / ds)) 0 1 ∧
    (_apply_decay s now ds).chaos =
      _clamp (s.chaos + DECAY_RATE_chaos * min 1 (max 0 (now - s.last_updated) / ds)) 0 1 := by
  simp only [_apply_decay, if_neg h]
  refine ⟨?_, ?_, ?_, ?_⟩ <;> trivial

/-- C1: Every reachable mood state (starting from the lazily created
default, under arbitrary sequences of `tick` and `update_state` with
arbitrary timestamps, event names, intensities and decay windows) has all
four numeric fields inside `[0,1]`. -/
theorem c1_reachable_fields_in_unit_interval (s : GooseState) (h : Reachable s) :
    0 ≤ s.aggression ∧ s.aggression ≤ 1 ∧ 0 ≤ s.boredom ∧ s.boredom ≤ 1 ∧
    0 ≤ s.curiosity ∧ s.curiosity ≤ 1 ∧ 0 ≤ s.chaos ∧ s.chaos ≤ 1 := by
  induction h with
  | init now =>
      refine ⟨?_, ?_, ?_, ?_, ?_, ?_, ?_, ?_⟩ <;> norm_num [_ensure_state]
  | tick_step now ds _ ih =>
      by_cases hds : ds ≤ 0
      · simpa [tick, _apply_decay, hds] using ih
      · obtain ⟨ha, hb, hc, hd⟩ := _apply_decay_fields _ now ds hds
        rw [tick] at *
        rw [ha, hb, hc, hd]
        exact ⟨clamp01_nonneg _, clamp01_le_one _, clamp01_nonneg _, clamp01_le_one _,
          clamp01_nonneg _, clamp01_le_one _, clamp01_nonneg _, clamp01_le_one _⟩
  | update_step event intensity now ds _ _ =>
      refine ⟨?_, ?_, ?_, ?_, ?_, ?_, ?_, ?_⟩ <;>
        simp only [update_state] <;>
        first
          | exact clamp01_nonneg _
          | exact clamp01_le_one _

/-- Witness for C1 at a concrete reachable state. -/
theorem c1_witness :
    0 ≤ (_ensure_state 0).aggression ∧ (_ensure_state 0).aggression ≤ 1 ∧
    0 ≤ (_ensure_state 0).boredom ∧ (_ensure_state 0).boredom ≤ 1 ∧
    0 ≤ (_ensure_state 0).curiosity ∧ (_ensure_state 0).curiosity ≤ 1 ∧
    0 ≤ (_ensure_state 0).chaos ∧ (_ensure_state 0).chaos ≤ 1 :=
  c1_reachable_fields_in_unit_interval _ (Reachable.init 0)

/-- C2 counterexample: `tick` increases `chaos`: from the stored state
`c2_state` (all fields in `[0,1]`, `last_updated = 0`), ticking at
`now = 300` with the default decay window moves `chaos` from `0.5` to
`0.51`.  This refutes the clause "tick does not increase chaos". -/
theorem c2_counterexample :
    c2_state.chaos < (tick c2_state 300 DEFAULT_DECAY_SECONDS).chaos := by
  norm_num [c2_state, tick, _apply_decay, _clamp, DEFAULT_DECAY_SECONDS,
    DECAY_RATE_chaos]

/-- C2 amended: For a stored state with fields in `[0,1]` and
`now > lastUpdated`, `tick` with a positive decay window applies decay
proportional to `min(1, elapsed/decaySeconds)`: aggression decreases
(strictly when positive), boredom and curiosity decrease toward their
resting value `0`, and chaos *increases* toward `1` (strictly when below
`1`); in particular `tick` never decreases chaos. -/
theorem c2_tick_decay_directions (s : GooseState) (now ds : ℚ)
    (hA0 : 0 ≤ s.aggression) (hA1 : s.aggression ≤ 1)
    (hB0 : 0 ≤ s.boredom) (hC0 : 0 ≤ s.curiosity)
    (hD0 : 0 ≤ s.chaos) (hD1 : s.chaos ≤ 1)
    (hnow : s.last_updated < now) (hds : 0 < ds) :
    (tick s now ds).aggression ≤ s.aggression ∧
    (0 < s.aggression → (tick s now ds).aggression < s.aggression) ∧
    (tick s now ds).boredom ≤ s.boredom ∧
    (tick s now ds).curiosity ≤ s.curiosity ∧
    s.chaos ≤ (tick s now ds).chaos ∧
    (s.chaos < 1 → s.chaos < (tick s now ds).chaos) := by
  have hnds : ¬ ds ≤ 0 := not_le.2 hds
  obtain ⟨ha, hb, hc, hd⟩ := _apply_decay_fields s now ds hnds
  rw [tick, ha, hb, hc, hd]
  have hel : max 0 (now - s.last_updated) = now - s.last_updated :=
    max_eq_right (le_of_lt (sub_pos.2 hnow))
  rw [hel]
  have hf0 : 0 < min 1 ((now - s.last_updated) / ds) :=
    lt_min one_pos (div_pos (sub_pos.2 hnow) hds)
  set f := min 1 ((now - s.last_updated) / ds) with hfdef
  have hAd : 0 < DECAY_RATE_aggression * f := by
    have : (0 : ℚ) < DECAY_RATE_aggression := by norm_num [DECAY_RATE_aggression]
    exact mul_pos this hf0
  have hBd : DECAY_RATE_boredom * f < 0 := by
    have : DECAY_RATE_boredom < 0 := by norm_num [DECAY_RATE_boredom]
    exact mul_neg_of_neg_of_pos this hf0
  have hCd : DECAY_RATE_curiosity * f < 0 := by
    have : DECAY_RATE_curiosity < 0 := by norm_num [DECAY_RATE_curiosity]
    exact mul_neg_of_neg_of_pos this hf0
  have hDd : 0 < DECAY_RATE_chaos * f := by
    have : (0 : ℚ) < DECAY_RATE_chaos := by norm_num [DECAY_RATE_chaos]
    exact mul_pos this hf0
  refine ⟨?_, ?_, ?_, ?_, ?_, ?_⟩
  · exact clamp01_le_of_le hA0 (by linarith)
  · intro hApos
    exact clamp01_lt_of_lt hApos (by linarith)
  · exact clamp01_le_of_le hB0 (by linarith)
  · exact clamp01_le_of_le hC0 (by linarith)
  · exact le_clamp01_of_le hD1 (by linarith)
  · intro hDlt
    exact lt_clamp01_of_lt hDlt (by linarith)

theorem list_sum_map_div {α : Type} (l : List α) (f : α → ℚ) (c : ℚ) :
    (l.map (fun i => f i / c)).sum = (l.map f).sum / c := by
  induction l with
  | nil => simp
  | cons a t ih => simp [ih, add_div]

@[simp] theorem pos_part_eq_max (x : ℚ) : (if 0 < x then x else 0) = max 0 x := by
  rcases le_or_lt x 0 with h | h
  · rw [if_neg (not_lt.2 h), max_eq_left h]
  · rw [if_pos h, max_eq_right (le_of_lt h)]

/-- C9: For every state with fields in `[0,1]`, the OBSERVE weight is at
least `0.1`, so the positive total of `get_decision_weights` is strictly
positive; hence `normalized` does not return the all-zero degenerate
distribution: its values are non-negative, OBSERVE's normalized weight is
strictly positive, and the values sum to `1` (so `get_intent` selects from a
genuine distribution). -/
theorem c9_observe_weight_normalization (s : GooseState)
    (hA0 : 0 ≤ s.aggression) (hA1 : s.aggression ≤ 1)
    (hB0 : 0 ≤ s.boredom) (hB1 : s.boredom ≤ 1)
    (hC0 : 0 ≤ s.curiosity) (hC1 : s.curiosity ≤ 1)
    (hD0 : 0 ≤ s.chaos) (hD1 : s.chaos ≤ 1) :
    1/10 ≤ get_decision_weights s Intent.observe ∧
    0 < positive_total (get_decision_weights s) ∧
    (∀ i, 0 ≤ normalized (get_decision_weights s) i) ∧
    0 < normalized (get_decision_weights s) Intent.observe ∧
    (allIntents.map (normalized (get_decision_weights s))).sum = 1 := by
  have hbonus : 0 ≤ MOOD_INTENT_BONUS s.mood Intent.observe := by
    cases s.mood <;> norm_num [MOOD_INTENT_BONUS]
  have hobs : 1/10 ≤ get_decision_weights s Intent.observe := by
    simp only [get_decision_weights, INTENT_BASE_WEIGHTS, INTENT_DRIVER_SUM]
    linarith
  set w := get_decision_weights s with hw
  have hterm : ∀ i, 0 ≤ (if 0 < w i then w i else 0) := by
    intro i
    split
    · exact le_of_lt (by assumption)
    · exact le_refl 0
  have htot : 0 < positive_total w := by
    have h1 : (if 0 < w Intent.observe then w Intent.observe else 0) = w Intent.observe :=
      if_pos (lt_of_lt_of_le (by norm_num) hobs)
    have h2 := hterm Intent.wander
    have h3 := hterm Intent.honk
    have h4 := hterm Intent.peck
    have h5 := hterm Intent.chase
    have h6 := hterm Intent.investigate
    have h7 := hterm Intent.retreat
    simp only [positive_total, allIntents, List.map_cons, List.map_nil,
      List.sum_cons, List.sum_nil] at h1 h2 h3 h4 h5 h6 h7 ⊢
    simp only [pos_part_eq_max] at *
    linarith
  have hnot : ¬ positive_total w ≤ 0 := not_le.2 htot
  have hnonneg : ∀ i, 0 ≤ normalized w i := by
    intro i
    simp only [normalized, if_neg hnot]
    exact div_nonneg (le_max_left 0 _) (le_of_lt htot)
  have hobspos : 0 < normalized w Intent.observe := by
    simp only [normalized, if_neg hnot]
    exact div_pos (lt_of_lt_of_le (by norm_num) (le_trans hobs (le_max_right 0 _))) htot
  have hsum : (allIntents.map (normalized w)).sum = 1 := by
    have hfun : normalized w = fun i => max 0 (w i) / positive_total w := by
      simp only [normalized, if_neg hnot]
    rw [hfun, list_sum_map_div]
    have hmax : (allIntents.map (fun i => max 0 (w i))).sum = positive_total w := by
      simp only [positive_total, pos_part_eq_max]
    rw [hmax, div_self (ne_of_gt htot)]
  exact ⟨hobs, htot, hnonneg, hobspos, hsum⟩

/-- Witness for C9 at the default state. -/
theorem c9_witness :
    1/10 ≤ get_decision_weights (_ensure_state 0) Intent.observe ∧
    0 < positive_total (get_decision_weights (_ensure_state 0)) ∧
    (∀ i, 0 ≤ normalized (get_decision_weights (_ensure_state 0)) i) ∧
    0 < normalized (get_decision_weights (_ensure_state 0)) Intent.observe ∧
    (allIntents.map (normalized (get_decision_weights (_ensure_state 0)))).sum = 1 :=
  c9_observe_weight_normalization (_ensure_state 0)
    (by norm_num [_ensure_state]) (by norm_num [_ensure_state])
    (by norm_num [_ensure_state]) (by norm_num [_ensure_state])
    (by norm_num [_ensure_state]) (by norm_num [_ensure_state])
    (by norm_num [_ensure_state]) (by norm_num [_ensure_state])

/-- Witness for C2's amended theorem at the concrete state `c2_state`. -/
theorem c2_witness :
    (tick c2_state 300 DEFAULT_DECAY_SECONDS).aggression ≤ c2_state.aggression ∧
    (0 < c2_state.aggression →
      (tick c2_state 300 DEFAULT_DECAY_SECONDS).aggression < c2_state.aggression) ∧
    (tick c2_state 300 DEFAULT_DECAY_SECONDS).boredom ≤ c2_state.boredom ∧
    (tick c2_state 300 DEFAULT_DECAY_SECONDS).curiosity ≤ c2_state.curiosity ∧
    c2_state.chaos ≤ (tick c2_state 300 DEFAULT_DECAY_SECONDS).chaos ∧
    (c2_state.chaos < 1 →
      c2_state.chaos < (tick c2_state 300 DEFAULT_DECAY_SECONDS).chaos) :=
  c2_tick_decay_directions c2_state 300 DEFAULT_DECAY_SECONDS
    (by norm_num [c2_state]) (by norm_num [c2_state]) (by norm_num [c2_state])
    (by norm_num [c2_state]) (by norm_num [c2_state]) (by norm_num [c2_state])
    (by norm_num [c2_state]) (by norm_num [DEFAULT_DECAY_SECONDS])

end GooseBrain

namespace Scoring

theorem sum_map_pos_iff {α : Type} (l : List α) (f : α → ℕ) :
    0 < (l.map f).sum ↔ ∃ x ∈ l, 0 < f x := by
  induction l with
  | nil => simp
  | cons a t ih =>
      have hsplit : 0 < f a + (t.map f).sum ↔ 0 < f a ∨ 0 < (t.map f).sum := by omega
      simp only [List.map_cons, List.sum_cons, hsplit, ih, List.mem_cons]
      constructor
      · rintro (h | ⟨x, hx, hfx⟩)
        · exact ⟨a, Or.inl rfl, h⟩
        · exact ⟨x, Or.inr hx, hfx⟩
      · rintro ⟨x, hx | hx, hfx⟩
        · exact Or.inl (hx ▸ hfx)
        · exact Or.inr ⟨x, hx, hfx⟩

/-- C4: `threshold_level` is monotone: for `s1 ≥ s2` its tier under the
ordering `none < warn < retaliate < severe` does not decrease, and since
thresholds are evaluated highest-first, a score equal to the severe
threshold classifies as `severe`. -/
theorem c4_threshold_level_monotone (config : ScoringConfig) (s1 s2 : ℚ)
    (h : s2 ≤ s1) :
    tier_rank (threshold_level s2 config) ≤ tier_rank (threshold_level s1 config) ∧
    threshold_level config.thresholds.severe config = "severe" := by
  constructor
  · unfold threshold_level
    split_ifs <;> simp [tier_rank] <;> linarith
  · unfold threshold_level
    rw [if_pos (le_refl _)]

/-- Witness for C4 at the default thresholds, `s1 = 18 ≥ s2 = 12`. -/
theorem c4_witness :
    tier_rank (threshold_level 12 default_config) ≤
      tier_rank (threshold_level 18 default_config) ∧
    threshold_level default_config.thresholds.severe default_config = "severe" :=
  c4_threshold_level_monotone default_config 18 12 (by norm_num)

/-- C5: `apply_decay` returns `score * 0.5 ^ ((now - lastUpdated) /
halfLife)` when the half-life is positive and `now ≥ lastUpdated`, is the
identity when the half-life is non-positive (divide-by-zero guard), and is
the identity over zero elapsed time. -/
theorem c5_apply_decay_spec (s t now : ℝ) (config : ScoringConfig)
    (hnow : t ≤ now) :
    (0 < config.half_life_seconds →
      apply_decay s t now config =
        s * (0.5 : ℝ) ^ ((now - t) / (config.half_life_seconds : ℝ))) ∧
    (config.half_life_seconds ≤ 0 → apply_decay s t now config = s) ∧
    apply_decay s t t config = s := by
  refine ⟨?_, ?_, ?_⟩
  · intro h
    have hcast : ¬ ((config.half_life_seconds : ℝ) ≤ 0) := by
      push_neg
      exact_mod_cast h
    simp only [apply_decay, if_neg hcast, max_eq_right (sub_nonneg.2 hnow)]
  · intro h
    have hcast : (config.half_life_seconds : ℝ) ≤ 0 := by exact_mod_cast h
    simp only [apply_decay, if_pos hcast]
  · rcases le_or_lt config.half_life_seconds 0 with h | h
    · have hcast : (config.half_life_seconds : ℝ) ≤ 0 := by exact_mod_cast h
      simp only [apply_decay, if_pos hcast]
    · have hcast : ¬ ((config.half_life_seconds : ℝ) ≤ 0) := by
        push_neg
        exact_mod_cast h
      simp only [apply_decay, if_neg hcast, sub_self, max_self, zero_div,
        Real.rpow_zero, mul_one]

/-- Witness for C5 with `s = 2`, `t = 0`, `now = 0`, default config. -/
theorem c5_witness :
    (0 < default_config.half_life_seconds →
      apply_decay 2 0 0 default_config =
        2 * (0.5 : ℝ) ^ (((0 : ℝ) - 0) / (default_config.half_life_seconds : ℝ))) ∧
    (default_config.half_life_seconds ≤ 0 → apply_decay 2 0 0 default_config = 2) ∧
    apply_decay 2 0 0 default_config = 2 :=
  c5_apply_decay_spec 2 0 0 default_config (by norm_num)

/-- C3 counterexample: The escalation sub-score windows only the
first five history entries: with `c3_history` (five stale entries followed
by one fresh insult at age 10 s) and the insulting current message
`"stupid"`, the code returns `0`, while the claim's formula — windowing
*all* history entries whose age is at most 2 minutes — yields the
escalation bonus `2`. -/
theorem c3_counterexample :
    _score_escalation (msg_of "stupid") c3_history default_config 1000 = 0 ∧
    escalation_claim (msg_of "stupid") c3_history default_config 1000 = 2 := by
  have hwin : _recent_window c3_history 1000 = [] := by
    norm_num [_recent_window, c3_history, List.take, List.filter_cons]
  have hne : c3_history.isEmpty = false := rfl
  have hfilter : c3_history.filter (fun s => decide ((1000 : ℚ) - s.created_at ≤ 120)) =
      [{ content := "idiot", created_at := 990, mentions := [] }] := by
    norm_num [c3_history, List.filter_cons]
  constructor
  · simp [_score_escalation, hne, hwin]
  · simp only [escalation_claim, hfilter]
    have hcur : 0 < _keyword_hits (to_lower (msg_of "stupid").content) _ALL_KEYWORDS := by
      decide
    have hpri : 0 < _keyword_hits (to_lower "idiot") _ALL_KEYWORDS := by decide
    have hex : ∃ s ∈ [(⟨"idiot", 990, []⟩ : HistorySample)],
        0 < _keyword_hits (to_lower s.content) _ALL_KEYWORDS :=
      ⟨_, List.mem_singleton_self _, hpri⟩
    rw [if_pos ⟨hcur, hex⟩]
    have hlen : ¬ (3 ≤ ([(⟨"idiot", 990, []⟩ : HistorySample)]).length) := by
      simp
    rw [if_neg hlen]
    norm_num [default_config]

/-- C3 amended: The escalation sub-score of `score_message` is
computed over exactly the *first five* history entries (most-recent-first)
whose age at `now` is at most 2 minutes: the escalation bonus is added iff
both the current message and at least one such windowed entry contain a hit
from the union of the three lexical sets, the rapid-fire bonus is added iff
that windowed subset has at least 3 entries, and the two bonuses are
additive. -/
theorem c3_escalation_amended (message : MessageEvent)
    (history : List HistorySample) (config : ScoringConfig) (now : ℚ) :
    _score_escalation message history config now =
      (if 0 < _keyword_hits (to_lower message.content) _ALL_KEYWORDS ∧
          (∃ s ∈ _recent_window history now,
            0 < _keyword_hits (to_lower s.content) _ALL_KEYWORDS)
       then config.escalation else 0)
      + (if 3 ≤ (_recent_window history now).length then config.rapid_fire else 0) := by
  by_cases h : history.isEmpty
  · have hnil : history = [] := List.isEmpty_iff.mp h
    subst hnil
    simp [_score_escalation, _recent_window]
  · by_cases hw : (_recent_window history now).isEmpty
    · have hwin : _recent_window history now = [] := List.isEmpty_iff.mp hw
      simp [_score_escalation, h, hw, hwin]
    · simp only [_score_escalation, h, hw, Bool.false_eq_true, if_false,
        sum_map_pos_iff]

/-- C6: With no mentions and no history: any content with zero keyword
hits scores exactly `0`; the score of `"you are so stupid"` is strictly
positive (one insult hit, no multipliers); and the score of
`"YOU ARE SO STUPID!!!"` is strictly greater still, because both the
all-caps multiplier and the exclamation multiplier apply. -/
theorem c6_caps_exclamation_order (content : String)
    (h1 : _keyword_hits (to_lower content) _INSULT_KEYWORDS = 0)
    (h2 : _keyword_hits (to_lower content) _PROFANITY = 0)
    (h3 : _keyword_hits (to_lower content) _THREATS = 0) :
    score_message (msg_of content) [] 0 default_config = 0 ∧
    0 < score_message (msg_of "you are so stupid") [] 0 default_config ∧
    score_message (msg_of "you are so stupid") [] 0 default_config <
      score_message (msg_of "YOU ARE SO STUPID!!!") [] 0 default_config := by
  have e1 : _keyword_hits (to_lower "you are so stupid") _INSULT_KEYWORDS = 1 := by decide
  have e2 : _keyword_hits (to_lower "you are so stupid") _PROFANITY = 0 := by decide
  have e3 : _keyword_hits (to_lower "you are so stupid") _THREATS = 0 := by decide
  have ecaps : _is_all_caps "you are so stupid" = false := by decide
  have eex : contains_sub "you are so stupid" "!" = false := by decide
  have f1 : _keyword_hits (to_lower "YOU ARE SO STUPID!!!") _INSULT_KEYWORDS = 1 := by decide
  have f2 : _keyword_hits (to_lower "YOU ARE SO STUPID!!!") _PROFANITY = 0 := by decide
  have f3 : _keyword_hits (to_lower "YOU ARE SO STUPID!!!") _THREATS = 0 := by decide
  have fcaps : _is_all_caps "YOU ARE SO STUPID!!!" = true := by decide
  have fex : contains_sub "YOU ARE SO STUPID!!!" "!" = true := by decide
  have hlow : score_message (msg_of "you are so stupid") [] 0 default_config = 2 := by
    simp [score_message, _score_content, _score_mentions, _score_repetition,
      _score_escalation, msg_of, e1, e2, e3, ecaps, eex]
    norm_num [default_config]
  have hcaps : score_message (msg_of "YOU ARE SO STUPID!!!") [] 0 default_config = 77/25 := by
    simp [score_message, _score_content, _score_mentions, _score_repetition,
      _score_escalation, msg_of, f1, f2, f3, fcaps, fex]
    norm_num [default_config]
  refine ⟨?_, ?_, ?_⟩
  · simp [score_message, _score_content, _score_mentions, _score_repetition,
      _score_escalation, msg_of, h1, h2, h3]
  · rw [hlow]
    norm_num
  · rw [hlow, hcaps]
    norm_num

/-- Witness for C6 with the hit-free content `"honk honk"`. -/
theorem c6_witness :
    score_message (msg_of "honk honk") [] 0 default_config = 0 ∧
    0 < score_message (msg_of "you are so stupid") [] 0 default_config ∧
    score_message (msg_of "you are so stupid") [] 0 default_config <
      score_message (msg_of "YOU ARE SO STUPID!!!") [] 0 default_config :=
  c6_caps_exclamation_order "honk honk" (by decide) (by decide) (by decide)

end Scoring

namespace Memory

/-- C7: After `set_cooldown(key, id, expiry)`, `is_on_cooldown(key, id,
now)` is true iff `now < expiry`; for a key never set, or a cleared key, it
is false; in particular after `set_cooldown(key, id, t+5)` it is true
evaluated at `t+1` and false evaluated at `t+6`. -/
theorem c7_cooldown_spec (m : Cooldowns) (key : String) (id : Int)
    (expiry now t : ℚ) :
    (is_on_cooldown (set_cooldown m key id expiry) key id now = true ↔ now < expiry) ∧
    is_on_cooldown empty_cooldowns key id now = false ∧
    is_on_cooldown (clear_cooldown m key id) key id now = false ∧
    is_on_cooldown (set_cooldown m key id (t + 5)) key id (t + 1) = true ∧
    is_on_cooldown (set_cooldown m key id (t + 5)) key id (t + 6) = false := by
  refine ⟨?_, ?_, ?_, ?_, ?_⟩
  · simp [is_on_cooldown, get_cooldown, set_cooldown]
  · simp [is_on_cooldown, get_cooldown, empty_cooldowns]
  · simp [is_on_cooldown, get_cooldown, clear_cooldown]
  · simp [is_on_cooldown, get_cooldown, set_cooldown]
  · simp [is_on_cooldown, get_cooldown, set_cooldown]
    linarith

theorem take_last_length {α : Type} (n : ℕ) (l : List α) :
    (take_last n l).length ≤ n := by
  simp [take_last]

theorem take_last_append_last {α : Type} (n : ℕ) (hn : 0 < n)
    (xs : List α) (a : α) :
    take_last n (take_last n xs ++ [a]) = take_last n (xs ++ [a]) := by
  obtain ⟨m, rfl⟩ : ∃ m, n = m + 1 := ⟨n - 1, by omega⟩
  simp only [take_last, List.reverse_append, List.reverse_reverse,
    List.reverse_cons, List.reverse_nil, List.nil_append, List.singleton_append,
    List.take_succ_cons, List.take_take]
  rw [Nat.min_eq_left (Nat.le_succ m)]

theorem actions_for_cons (u : Int) (op : Int × String × ℚ)
    (ops : List (Int × String × ℚ)) :
    actions_for u (op :: ops) =
      if op.1 = u then (⟨op.2.1, op.2.2⟩ : RecentAction) :: actions_for u ops
      else actions_for u ops := by
  by_cases hop : op.1 = u <;> simp [actions_for, List.filter_cons, hop]

theorem run_adds_spec (ops : List (Int × String × ℚ)) (st : RecentActions)
    (h : Int → List RecentAction) (hst : ∀ u, st u = take_last 10 (h u)) (u : Int) :
    run_adds st ops u = take_last 10 (h u ++ actions_for u ops) := by
  induction ops generalizing st h with
  | nil => simp [run_adds, actions_for, hst u]
  | cons op ops ih =>
      have hst' : ∀ v,
          add_recent_action st op.1 op.2.1 op.2.2 DEFAULT_RECENT_ACTION_LIMIT v =
          take_last 10
            ((fun v => if v = op.1 then h v ++ [⟨op.2.1, op.2.2⟩] else h v) v) := by
        intro v
        by_cases hv : v = op.1
        · simp only [add_recent_action, DEFAULT_RECENT_ACTION_LIMIT, hv, if_pos rfl,
            if_pos (by norm_num : (0 : Int) < 10)]
          rw [hst op.1]
          exact take_last_append_last 10 (by norm_num) (h op.1) _
        · simp only [add_recent_action, DEFAULT_RECENT_ACTION_LIMIT, if_neg hv]
          exact hst v
      have hrec := ih (add_recent_action st op.1 op.2.1 op.2.2 DEFAULT_RECENT_ACTION_LIMIT)
        (fun v => if v = op.1 then h v ++ [⟨op.2.1, op.2.2⟩] else h v) hst'
      have hstep : run_adds st (op :: ops) u =
          run_adds (add_recent_action st op.1 op.2.1 op.2.2 DEFAULT_RECENT_ACTION_LIMIT)
            ops u := rfl
      rw [hstep, hrec, actions_for_cons]
      by_cases hu : u = op.1
      · subst hu
        simp
      · have h2 : ¬ (op.1 = u) := fun hh => hu hh.symm
        simp only [if_neg hu, if_neg h2]

/-- C10: Starting from the empty store, after any sequence of
`add_recent_action` calls with the default limit `10`, each user's stored
list is exactly the last 10 of that user's added actions in insertion
order — in particular its length is at most 10 — and `get_recent_actions`
returns exactly that stored list. -/
theorem c10_recent_actions_bounded (ops : List (Int × String × ℚ)) (u : Int) :
    get_recent_actions (run_adds empty_recent_actions ops) u =
      take_last 10 (actions_for u ops) ∧
    (get_recent_actions (run_adds empty_recent_actions ops) u).length ≤ 10 := by
  have hmain := run_adds_spec ops empty_recent_actions (fun _ => []) (fun _ => rfl) u
  simp only [List.nil_append] at hmain
  refine ⟨hmain, ?_⟩
  rw [get_recent_actions] at *
  rw [hmain]
  exact take_last_length 10 _

end Memory

namespace Timers

/-- C8: `randomized_delay` / `randomized_delay_value` fail iff
`min_seconds < 0`, `max_seconds < 0`, or `max_seconds < min_seconds`, and
otherwise return a duration inside `[min_seconds, max_seconds]`; the
`RateLimiter` constructor fails iff `max_calls ≤ 0` or `per_seconds ≤ 0`. -/
theorem c8_config_validation (mn mx r : ℚ) (hr0 : 0 ≤ r) (hr1 : r ≤ 1)
    (mc : Int) (ps : ℚ) :
    ((randomized_delay_value mn mx r).isOk = false ↔ (mn < 0 ∨ mx < 0 ∨ mx < mn)) ∧
    randomized_delay mn mx r = randomized_delay_value mn mx r ∧
    (∀ d, randomized_delay_value mn mx r = .ok d → mn ≤ d ∧ d ≤ mx) ∧
    ((RateLimiter.make mc ps).isOk = false ↔ (mc ≤ 0 ∨ ps ≤ 0)) := by
  refine ⟨?_, rfl, ?_, ?_⟩
  · unfold randomized_delay_value
    by_cases h1 : mn < 0 ∨ mx < 0
    · rw [if_pos h1]
      simp only [Except.isOk, Except.toBool]
      tauto
    · rw [if_neg h1]
      by_cases h2 : mx < mn
      · rw [if_pos h2]
        simp only [Except.isOk, Except.toBool]
        tauto
      · rw [if_neg h2]
        simp only [Except.isOk, Except.toBool]
        constructor
        · intro hfalse
          cases hfalse
        · intro habs
          tauto
  · intro d hd
    unfold randomized_delay_value at hd
    split_ifs at hd with h1 h2
    all_goals injection hd with hd
    push_neg at h1 h2
    refine ⟨?_, ?_⟩ <;> nlinarith [h1.1, h1.2, hd]
  · unfold RateLimiter.make
    by_cases h1 : mc ≤ 0
    · rw [if_pos h1]
      simp only [Except.isOk, Except.toBool]
      tauto
    · rw [if_neg h1]
      by_cases h2 : ps ≤ 0
      · rw [if_pos h2]
        simp only [Except.isOk, Except.toBool]
        tauto
      · rw [if_neg h2]
        simp only [Except.isOk, Except.toBool]
        constructor
        · intro hfalse
          cases hfalse
        · intro habs
          tauto

/-- Witness for C8 at `min = 1`, `max = 3`, `r = 1/2`, `max_calls = 4`,
`per_seconds = 2`. -/
theorem c8_witness :
    ((randomized_delay_value 1 3 (1/2)).isOk = false ↔
      ((1 : ℚ) < 0 ∨ (3 : ℚ) < 0 ∨ (3 : ℚ) < 1)) ∧
    randomized_delay 1 3 (1/2) = randomized_delay_value 1 3 (1/2) ∧
    (∀ d, randomized_delay_value 1 3 (1/2) = .ok d → 1 ≤ d ∧ d ≤ 3) ∧
    ((RateLimiter.make 4 2).isOk = false ↔ ((4 : Int) ≤ 0 ∨ (2 : ℚ) ≤ 0)) :=
  c8_config_validation 1 3 (1/2) (by norm_num) (by norm_num) 4 2

end Timers
